import Mathlib

/-!
Shallow embedding of the ragapp retrieval-and-generation pipeline.

The embedding follows the Python sources under src/ragapp:
ingestion/processor.py (DocumentProcessor), retrieval/vector_store.py
(VectorStore), retrieval/retriever.py (DocumentRetriever),
generation/generator.py (ResponseGenerator) and pipeline.py (RAGPipeline).

Modelling conventions:
- similarity scores (Python floats compared only with the order relation)
  are rationals;
- backend calls into ChromaDB, OpenAI and Ollama (external services) are
  parameters of the embedded functions; a call that can raise is a value of
  an Except type, and a Python raise or re-raise is an Except.error;
- Python object mutation is explicit state passing: methods that mutate
  self.vector_store take and return a VectorStore value, and the effect of
  in-place list mutation on an input list is embedded as a separate
  function returning the post-call value of that list.
-/

/-- Metadata carried by a langchain Document, restricted to the keys the
ragapp core reads or writes: source (set by the loaders), chunk_id and
chunk_size (set by DocumentProcessor). Absent keys are none. -/
structure Metadata where
  source : Option String := none
  chunk_id : Option Nat := none
  chunk_size : Option Nat := none
deriving DecidableEq

/-- langchain_core.documents.Document: page content plus metadata. -/
structure Document where
  page_content : String
  metadata : Metadata := {}
deriving DecidableEq

/-- The backing ChromaDB collection, abstracted to the list of stored
documents (the only state the core observes through add/search/count). -/
structure ChromaCollection where
  docs : List Document
deriving DecidableEq

/-- VectorStore state (vector_store.py): the lazily initialized handle
self.vector_store, which is None until create_or_load runs. -/
structure VectorStore where
  vector_store : Option ChromaCollection
deriving DecidableEq

/-- Chroma.add_documents on the backing collection: appends the batch. -/
def ChromaCollection.add_documents (c : ChromaCollection) (batch : List Document) :
    ChromaCollection :=
  { docs := c.docs ++ batch }

/-- VectorStore.create_or_load (vector_store.py 69-86): loads the persisted
collection into self.vector_store. The persisted collection is a parameter
standing for the Chroma(collection_name, embedding, persist_directory)
constructor result. -/
def VectorStore.create_or_load (persisted : ChromaCollection) (st : VectorStore) :
    VectorStore :=
  { st with vector_store := some persisted }

/-- Access to self.vector_store at points where the source has already
ensured it is not None; the default is never reached on those paths. -/
def VectorStore.current (st : VectorStore) : ChromaCollection :=
  st.vector_store.getD { docs := [] }

/-- The filtered_results comprehension shared by
VectorStore.similarity_search (vector_store.py 144-146) and
DocumentRetriever.retrieve_with_scores (retriever.py 80-82): keep exactly
the pairs with score >= score_threshold, in order. -/
def VectorStore.filtered_results (results : List (Document × ℚ))
    (score_threshold : ℚ) : List (Document × ℚ) :=
  results.filter fun p => decide (score_threshold ≤ p.2)

/-- VectorStore.similarity_search (vector_store.py 118-158). The two Chroma
search calls are parameters: scoredSearch models
similarity_search_with_relevance_scores(query, k), plainSearch models
similarity_search(query, k); either may fail. The method lazily
materializes the collection, then either filters scored results by the
threshold and drops the scores, or returns the plain search results; a
backend exception is logged and re-raised. -/
def VectorStore.similarity_search {E : Type}
    (persisted : ChromaCollection)
    (scoredSearch : ChromaCollection → String → Int → Except E (List (Document × ℚ)))
    (plainSearch : ChromaCollection → String → Int → Except E (List Document))
    (query : String) (k : Int) (score_threshold : Option ℚ)
    (st : VectorStore) : Except E (List Document) × VectorStore :=
  let st' := if st.vector_store.isNone then VectorStore.create_or_load persisted st else st
  match score_threshold with
  | some threshold =>
    match scoredSearch (VectorStore.current st') query k with
    | Except.ok results =>
      (Except.ok ((VectorStore.filtered_results results threshold).map Prod.fst), st')
    | Except.error e => (Except.error e, st')
  | none =>
    match plainSearch (VectorStore.current st') query k with
    | Except.ok results => (Except.ok results, st')
    | Except.error e => (Except.error e, st')

/-- VectorStore.add_documents (vector_store.py 88-116): returns immediately
on an empty list, lazily materializes the collection, then appends the
documents to it in batches of batch_size. -/
def VectorStore.add_documents (persisted : ChromaCollection)
    (documents : List Document) (batch_size : Nat) (st : VectorStore) : VectorStore :=
  if documents.isEmpty then st
  else
    let st' := if st.vector_store.isNone then VectorStore.create_or_load persisted st else st
    { st' with
      vector_store :=
        some ((documents.toChunks batch_size).foldl
          ChromaCollection.add_documents (VectorStore.current st')) }

/-- VectorStore.get_document_count (vector_store.py 160-174): returns 0,
without initializing anything, when self.vector_store is None; otherwise
returns the collection count. (The except-branch that also returns 0 when
the backend count call fails is not modelled.) -/
def VectorStore.get_document_count (st : VectorStore) : Nat × VectorStore :=
  match st.vector_store with
  | none => (0, st)
  | some c => (c.docs.length, st)

/-- Python truthiness default for an int-or-None argument: the expression
k or default, where both None and 0 are falsy (retriever.py 43 and 70). -/
def pyOr (k : Option Int) (default : Int) : Int :=
  match k with
  | none => default
  | some v => if v = 0 then default else v

/-- DocumentRetriever configuration (retriever.py 16-31). -/
structure DocumentRetriever where
  max_results : Int
  similarity_threshold : ℚ
deriving DecidableEq

/-- DocumentRetriever.retrieve (retriever.py 33-54): defaults k with
num_results = k or max_results, then delegates to
VectorStore.similarity_search with score_threshold = similarity_threshold. -/
def DocumentRetriever.retrieve {E : Type} (r : DocumentRetriever)
    (persisted : ChromaCollection)
    (scoredSearch : ChromaCollection → String → Int → Except E (List (Document × ℚ)))
    (plainSearch : ChromaCollection → String → Int → Except E (List Document))
    (query : String) (k : Option Int) (st : VectorStore) :
    Except E (List Document) × VectorStore :=
  let num_results := pyOr k r.max_results
  VectorStore.similarity_search persisted scoredSearch plainSearch query num_results
    (some r.similarity_threshold) st

/-- DocumentRetriever.retrieve_with_scores (retriever.py 56-87): defaults k,
lazily materializes the collection, calls the scored search and keeps the
pairs with score >= similarity_threshold. -/
def DocumentRetriever.retrieve_with_scores {E : Type} (r : DocumentRetriever)
    (persisted : ChromaCollection)
    (scoredSearch : ChromaCollection → String → Int → Except E (List (Document × ℚ)))
    (query : String) (k : Option Int) (st : VectorStore) :
    Except E (List (Document × ℚ)) × VectorStore :=
  let num_results := pyOr k r.max_results
  let st' := if st.vector_store.isNone then VectorStore.create_or_load persisted st else st
  match scoredSearch (VectorStore.current st') query num_results with
  | Except.ok results =>
    (Except.ok (VectorStore.filtered_results results r.similarity_threshold), st')
  | Except.error e => (Except.error e, st')

/-- The apostrophe character, used by string constants of the source. -/
def apos : String := String.singleton (Char.ofNat 39)

/-- Models Python str.split() with no separator (processor.py 70): cut the
character list at runs of whitespace, discarding empty pieces. The first
argument accumulates the current word in reverse. -/
def py_words : List Char → List Char → List (List Char)
  | acc, [] => if acc.isEmpty then [] else [acc.reverse]
  | acc, c :: cs =>
    if c.isWhitespace then
      if acc.isEmpty then py_words [] cs else acc.reverse :: py_words [] cs
    else py_words (c :: acc) cs

/-- Python " ".join(s.split()) (processor.py 70): collapse every whitespace
run to a single space and drop leading/trailing whitespace. -/
def collapse_whitespace (s : String) : String :=
  String.mk (List.intercalate [' '] (py_words [] s.data))

/-- Python str.strip(): drop leading and trailing whitespace. -/
def py_strip (s : String) : String :=
  String.mk (((s.data.dropWhile Char.isWhitespace).reverse.dropWhile Char.isWhitespace).reverse)

/-- Python doc.metadata.get("source", "Unknown") (retriever.py 103,
generator.py 163). -/
def metadata_source_or_unknown (m : Metadata) : String :=
  m.source.getD "Unknown"

/-- DocumentRetriever.format_context (retriever.py 89-107): a fixed sentinel
for an empty list, otherwise numbered blocks (starting at 1) tagged with
each document source, joined by blank lines. -/
def DocumentRetriever.format_context (documents : List Document) : String :=
  if documents.isEmpty then "No relevant documents found."
  else
    let context_parts := documents.mapIdx fun idx doc =>
      "[Document " ++ toString (idx + 1) ++ "] Source: " ++
        metadata_source_or_unknown doc.metadata ++ "\n" ++ py_strip doc.page_content
    String.intercalate "\n\n" context_parts

/-- The LLM provider selected at ResponseGenerator construction
(generator.py 20-70). -/
inductive Provider
| openai
| ollama
deriving DecidableEq

/-- ResponseGenerator configuration: the provider branch taken by
generate/stream_generate. Model name, temperature and token limits only
parameterize the external backend and are not modelled. -/
structure ResponseGenerator where
  provider : Provider
deriving DecidableEq

/-- The flattened prompt text built for the Ollama branch of
ResponseGenerator.generate and stream_generate (generator.py 112-117 and
208-213). -/
def ResponseGenerator.ollama_prompt_text (context question : String) : String :=
  "Context information:\n" ++ context ++ "\n\nQuestion: " ++ question ++
    "\n\nBased on the context above, please provide a detailed answer to the question. If the context doesn" ++
    apos ++ "t contain the information needed to answer the question, please say so."

/-- ResponseGenerator.generate (generator.py 72-126). The two backend model
invocations are parameters: openaiInvoke models prompt.format_messages plus
self.llm.invoke for the OpenAI branch (the prompt template choice driven by
chat_history is inside it), ollamaInvoke models self.llm.invoke on the
flattened prompt text for the Ollama branch. A backend exception is logged
and re-raised unchanged. -/
def ResponseGenerator.generate {E : Type} (g : ResponseGenerator)
    (openaiInvoke : String → String → Option (List String) → Except E String)
    (ollamaInvoke : String → Except E String)
    (question context : String) (chat_history : Option (List String)) :
    Except E String :=
  match g.provider with
  | Provider.openai =>
    match openaiInvoke context question chat_history with
    | Except.ok response => Except.ok response
    | Except.error e => Except.error e
  | Provider.ollama =>
    match ollamaInvoke (ResponseGenerator.ollama_prompt_text context question) with
    | Except.ok answer => Except.ok answer
    | Except.error e => Except.error e

/-- ResponseGenerator.stream_generate (generator.py 169-220): like generate
but the backends yield a stream of chunks, embedded as the list of yielded
fragments; the OpenAI branch drops falsy (empty) chunk contents. A backend
exception is logged and re-raised unchanged. -/
def ResponseGenerator.stream_generate {E : Type} (g : ResponseGenerator)
    (openaiStream : String → String → Option (List String) → Except E (List String))
    (ollamaStream : String → Except E (List String))
    (question context : String) (chat_history : Option (List String)) :
    Except E (List String) :=
  match g.provider with
  | Provider.openai =>
    match openaiStream context question chat_history with
    | Except.ok chunks => Except.ok (chunks.filter fun chunk => decide (chunk ≠ ""))
    | Except.error e => Except.error e
  | Provider.ollama =>
    match ollamaStream (ResponseGenerator.ollama_prompt_text context question) with
    | Except.ok chunks => Except.ok chunks
    | Except.error e => Except.error e

/-- ResponseGenerator._format_documents (generator.py 149-167): a fixed
sentinel for an empty list, otherwise numbered source-tagged blocks joined
by blank lines. -/
def ResponseGenerator.format_documents (documents : List Document) : String :=
  if documents.isEmpty then "No relevant information found in the knowledge base."
  else
    let context_parts := documents.mapIdx fun idx doc =>
      "--- Document " ++ toString (idx + 1) ++ " (Source: " ++
        metadata_source_or_unknown doc.metadata ++ ") ---\n" ++ py_strip doc.page_content
    String.intercalate "\n\n" context_parts

/-- ResponseGenerator.generate_from_documents (generator.py 128-147):
serializes the documents with _format_documents and delegates to generate. -/
def ResponseGenerator.generate_from_documents {E : Type} (g : ResponseGenerator)
    (openaiInvoke : String → String → Option (List String) → Except E String)
    (ollamaInvoke : String → Except E String)
    (question : String) (documents : List Document)
    (chat_history : Option (List String)) : Except E String :=
  let context := ResponseGenerator.format_documents documents
  ResponseGenerator.generate g openaiInvoke ollamaInvoke question context chat_history

/-- The fixed no-relevant-information answer of RAGPipeline.query and
stream_query (pipeline.py 118 and 152). -/
def no_info_answer : String :=
  "I couldn" ++ apos ++ "t find any relevant information to answer your question."

/-- Observable outcome of one RAGPipeline.query call: the returned answer,
the returned source list when return_sources is set, and how many times the
Generator was invoked during the call. -/
structure QueryResult where
  answer : String
  sources : Option (List Document)
  generator_calls : Nat
deriving DecidableEq

/-- RAGPipeline.query (pipeline.py 96-130). The retrieval step
self.retriever.retrieve(question) is abstracted as retrieve (its returned
document list), and the Generator call
self.generator.generate_from_documents as gen; generator_calls counts how
many times gen runs. An empty retrieval short-circuits to the fixed
answer. -/
def RAGPipeline.query (retrieve : String → List Document)
    (gen : String → List Document → String)
    (question : String) (return_sources : Bool) : QueryResult :=
  let documents := retrieve question
  if documents.isEmpty then
    { answer := no_info_answer
      sources := if return_sources then some [] else none
      generator_calls := 0 }
  else
    { answer := gen question documents
      sources := if return_sources then some documents else none
      generator_calls := 1 }

/-- RAGPipeline.stream_query (pipeline.py 132-163), embedded as the list of
yielded fragments paired with the number of Generator invocations. An empty
retrieval yields the fixed answer once and ends; otherwise the documents
are formatted with DocumentRetriever.format_context and the Generator
streaming call (abstracted as sgen) produces the fragments. -/
def RAGPipeline.stream_query (retrieve : String → List Document)
    (sgen : String → String → List String)
    (question : String) : List String × Nat :=
  let documents := retrieve question
  if documents.isEmpty then ([no_info_answer], 0)
  else
    let context := DocumentRetriever.format_context documents
    (sgen question context, 1)

/-- DocumentProcessor._clean_documents (processor.py 58-80), value of the
returned cleaned list: whitespace-collapse each content, dropping documents
that are empty after cleaning. -/
def DocumentProcessor.clean_documents (documents : List Document) : List Document :=
  documents.filterMap fun doc =>
    let content := collapse_whitespace doc.page_content
    if py_strip content = "" then none
    else some { doc with page_content := content }

/-- Observable effect of DocumentProcessor._clean_documents on its INPUT
list: the loop assigns doc.page_content = content in place on the caller
documents (processor.py 77), so after the call every input document that
did not clean to empty carries the collapsed content. -/
def DocumentProcessor.clean_documents_input_after (documents : List Document) :
    List Document :=
  documents.map fun doc =>
    let content := collapse_whitespace doc.page_content
    if py_strip content = "" then doc
    else { doc with page_content := content }

/-- DocumentProcessor._add_chunk_metadata (processor.py 82-95): enumerate
the chunks and set chunk_id to the position and chunk_size to the content
length, leaving content and the other metadata alone. -/
def DocumentProcessor.add_chunk_metadata (documents : List Document) : List Document :=
  documents.mapIdx fun idx doc =>
    { doc with
      metadata :=
        { doc.metadata with
          chunk_id := some idx
          chunk_size := some doc.page_content.length } }

/-- DocumentProcessor.process_documents (processor.py 31-56): empty input
returns the empty list; otherwise clean, split with the configured text
splitter (the external langchain RecursiveCharacterTextSplitter, abstracted
as the split_documents parameter) and add the chunk metadata. -/
def DocumentProcessor.process_documents (split_documents : List Document → List Document)
    (documents : List Document) : List Document :=
  if documents.isEmpty then []
  else
    let cleaned_docs := DocumentProcessor.clean_documents documents
    let chunked_docs := split_documents cleaned_docs
    DocumentProcessor.add_chunk_metadata chunked_docs

/-- Observable effect of DocumentProcessor.process_documents on its INPUT
list: only the _clean_documents step touches the caller documents (the
splitter builds fresh chunk objects and _add_chunk_metadata runs on those),
and the empty-input guard returns before cleaning. -/
def DocumentProcessor.process_documents_input_after (documents : List Document) :
    List Document :=
  if documents.isEmpty then documents
  else DocumentProcessor.clean_documents_input_after documents

/-- Modelled from the spec: the chunk splitting itself is performed by
langchain RecursiveCharacterTextSplitter, an external dependency whose code
is not part of this repository. Section 4.1 of the spec describes the split
as overlapping windows of at most chunk_size characters where adjacent
chunks share chunk_overlap copied characters; this is that sliding window
over the character list of one cleaned text. -/
def split_text_windows (chunk_size chunk_overlap : Nat) (s : List Char) :
    List (List Char) :=
  if s.length ≤ chunk_size ∨ chunk_size ≤ chunk_overlap then [s]
  else
    s.take chunk_size ::
      split_text_windows chunk_size chunk_overlap (s.drop (chunk_size - chunk_overlap))
termination_by s.length
decreasing_by
  simp only [List.length_drop]
  omega

/-- Modelled from the spec: chunking one document derives fresh child
documents, one per window, inheriting the source metadata. -/
def split_document_model (chunk_size chunk_overlap : Nat) (doc : Document) :
    List Document :=
  (split_text_windows chunk_size chunk_overlap doc.page_content.data).map fun w =>
    { page_content := String.mk w, metadata := doc.metadata }

/-- Modelled from the spec: the batch splitter flattens the per-document
windows in order, as langchain split_documents does. -/
def split_documents_model (chunk_size chunk_overlap : Nat) (docs : List Document) :
    List Document :=
  docs.flatMap (split_document_model chunk_size chunk_overlap)

/-- Concrete document used by the witnesses below. -/
def wit_doc1 : Document := { page_content := "alpha" }

/-- Second concrete document used by the witnesses below. -/
def wit_doc2 : Document := { page_content := "beta" }

/-- A concrete descending scored result list for the witnesses. -/
def wit_results : List (Document × ℚ) := [(wit_doc1, 9), (wit_doc2, 5)]

/-- A concrete retriever configuration for the witnesses. -/
def wit_retriever : DocumentRetriever := { max_results := 5, similarity_threshold := 7 }

/-- A concrete uninitialized vector store for the witnesses. -/
def wit_store_empty : VectorStore := { vector_store := none }

/-- A concrete persisted collection for the witnesses. -/
def wit_collection : ChromaCollection := { docs := [] }

/-- A concrete scored-search backend that always succeeds with
wit_results. -/
def wit_scored : ChromaCollection → String → Int → Except Nat (List (Document × ℚ)) :=
  fun _ _ _ => Except.ok wit_results

/-- A concrete plain-search backend that always succeeds with no
results. -/
def wit_plain : ChromaCollection → String → Int → Except Nat (List Document) :=
  fun _ _ _ => Except.ok []

theorem filtered_results_mem (results : List (Document × ℚ)) (t : ℚ)
    (p : Document × ℚ) (hp : p ∈ VectorStore.filtered_results results t) : t ≤ p.2 := by
  simp only [VectorStore.filtered_results, List.mem_filter, decide_eq_true_eq] at hp
  exact hp.2

theorem filtered_results_sublist (results : List (Document × ℚ)) (t : ℚ) :
    List.Sublist (VectorStore.filtered_results results t) results :=
  List.filter_sublist results

theorem add_chunk_metadata_get (l : List Document) (i : Nat)
    (h : i < (DocumentProcessor.add_chunk_metadata l).length) :
    ∃ h2 : i < l.length,
      (DocumentProcessor.add_chunk_metadata l).get ⟨i, h⟩ =
        { l.get ⟨i, h2⟩ with
          metadata :=
            { (l.get ⟨i, h2⟩).metadata with
              chunk_id := some i
              chunk_size := some ((l.get ⟨i, h2⟩).page_content.length) } } := by
  have h2 : i < l.length := by
    simpa [DocumentProcessor.add_chunk_metadata] using h
  exact ⟨h2, List.get_mapIdx l _ i h2 h⟩

theorem mem_add_chunk_metadata (l : List Document) (d : Document)
    (hd : d ∈ DocumentProcessor.add_chunk_metadata l) :
    ∃ d2 ∈ l, d.page_content = d2.page_content := by
  rw [DocumentProcessor.add_chunk_metadata, List.mapIdx_eq_ofFn, List.mem_ofFn] at hd
  obtain ⟨i, hi⟩ := hd
  refine ⟨l.get i, List.get_mem l i.1 i.2, ?_⟩
  rw [← hi]

theorem split_text_windows_sizes (cs co : Nat) (s : List Char) (hov : co < cs) :
    ∀ c ∈ split_text_windows cs co s, c.length ≤ cs := by
  induction s using split_text_windows.induct cs co with
  | case1 s h =>
    rw [split_text_windows, if_pos h]
    intro c hc
    simp only [List.mem_singleton] at hc
    subst hc
    rcases h with h | h
    · exact h
    · omega
  | case2 s h ih =>
    rw [split_text_windows, if_neg h]
    intro c hc
    rcases List.mem_cons.mp hc with hc | hc
    · subst hc
      simp only [List.length_take]
      omega
    · exact ih c hc

theorem split_text_windows_head (cs co : Nat) (s : List Char) (hov : co < cs) :
    (split_text_windows cs co s).head? = some (s.take cs) := by
  rw [split_text_windows]
  by_cases h : s.length ≤ cs ∨ cs ≤ co
  · rw [if_pos h]
    rcases h with h | h
    · simp [List.take_of_length_le h]
    · omega
  · rw [if_neg h]
    simp

theorem split_text_windows_chain (cs co : Nat) (s : List Char) (hov : co < cs) :
    List.Chain' (fun a b => a.drop (cs - co) = b.take co)
      (split_text_windows cs co s) := by
  induction s using split_text_windows.induct cs co with
  | case1 s h =>
    rw [split_text_windows, if_pos h]
    simp
  | case2 s h ih =>
    rw [split_text_windows, if_neg h]
    refine List.chain'_cons'.mpr ⟨?_, ih⟩
    intro y hy
    rw [split_text_windows_head cs co _ hov] at hy
    simp only [Option.mem_def, Option.some.injEq] at hy
    subst hy
    rw [List.drop_take, List.take_take]
    have h1 : cs - (cs - co) = co := by omega
    have h2 : min co cs = co := by omega
    rw [h1, h2]

/-- C1: for every query, every document/score pair surfaced after threshold
filtering (by DocumentRetriever.retrieve via VectorStore.similarity_search
with a score_threshold, and by DocumentRetriever.retrieve_with_scores)
satisfies score >= similarity_threshold, and filtering preserves the
descending-score order of the underlying search results among survivors:
retrieve_with_scores returns exactly the threshold-passing pairs, each such
pair meets the threshold, descending order is preserved, and retrieve
returns the same surviving pairs with the scores projected away. -/
theorem retrieval_threshold_filter_invariant {E : Type}
    (r : DocumentRetriever) (persisted : ChromaCollection)
    (scoredSearch : ChromaCollection → String → Int → Except E (List (Document × ℚ)))
    (plainSearch : ChromaCollection → String → Int → Except E (List Document))
    (query : String) (k : Option Int) (st : VectorStore)
    (results : List (Document × ℚ))
    (hsorted : List.Pairwise (fun a b => b.2 ≤ a.2) results)
    (hbackend : ∀ c q n, scoredSearch c q n = Except.ok results) :
    (DocumentRetriever.retrieve_with_scores r persisted scoredSearch query k st).1 =
      Except.ok (VectorStore.filtered_results results r.similarity_threshold) ∧
    (∀ p ∈ VectorStore.filtered_results results r.similarity_threshold,
      r.similarity_threshold ≤ p.2) ∧
    List.Pairwise (fun a b => b.2 ≤ a.2)
      (VectorStore.filtered_results results r.similarity_threshold) ∧
    (DocumentRetriever.retrieve r persisted scoredSearch plainSearch query k st).1 =
      Except.ok ((VectorStore.filtered_results results r.similarity_threshold).map
        Prod.fst) := by
  refine ⟨?_, ?_, ?_, ?_⟩
  · simp [DocumentRetriever.retrieve_with_scores, hbackend]
  · intro p hp
    exact filtered_results_mem _ _ _ hp
  · exact List.Pairwise.sublist (filtered_results_sublist _ _) hsorted
  · simp [DocumentRetriever.retrieve, VectorStore.similarity_search, hbackend]

/-- Witness for C1 at a concrete descending result list and threshold 7. -/
theorem retrieval_threshold_filter_invariant_witness :
    (DocumentRetriever.retrieve_with_scores wit_retriever wit_collection wit_scored
        "q" none wit_store_empty).1 =
      Except.ok (VectorStore.filtered_results wit_results 7) ∧
    (∀ p ∈ VectorStore.filtered_results wit_results 7, (7 : ℚ) ≤ p.2) ∧
    List.Pairwise (fun a b => b.2 ≤ a.2) (VectorStore.filtered_results wit_results 7) ∧
    (DocumentRetriever.retrieve wit_retriever wit_collection wit_scored wit_plain
        "q" none wit_store_empty).1 =
      Except.ok ((VectorStore.filtered_results wit_results 7).map Prod.fst) :=
  retrieval_threshold_filter_invariant wit_retriever wit_collection wit_scored wit_plain
    "q" none wit_store_empty wit_results (by decide) (fun _ _ _ => rfl)

/-- C7: retrieval filtering is monotonic in the threshold: for the same
underlying scored search results, raising the threshold never increases the
number of surviving results, for both the scored pair list and the
projected document list. -/
theorem threshold_filter_monotone (results : List (Document × ℚ)) (t1 t2 : ℚ)
    (h : t1 ≤ t2) :
    (VectorStore.filtered_results results t2).length ≤
      (VectorStore.filtered_results results t1).length ∧
    ((VectorStore.filtered_results results t2).map Prod.fst).length ≤
      ((VectorStore.filtered_results results t1).map Prod.fst).length := by
  have hsub : List.Sublist (VectorStore.filtered_results results t2)
      (VectorStore.filtered_results results t1) := by
    refine List.monotone_filter_right results ?_
    intro a ha
    simp only [decide_eq_true_eq] at ha ⊢
    exact le_trans h ha
  exact ⟨hsub.length_le, by simpa using hsub.length_le⟩

/-- Witness for C7 at thresholds 5 <= 7 on a concrete result list. -/
theorem threshold_filter_monotone_witness :
    (VectorStore.filtered_results wit_results 7).length ≤
      (VectorStore.filtered_results wit_results 5).length ∧
    ((VectorStore.filtered_results wit_results 7).map Prod.fst).length ≤
      ((VectorStore.filtered_results wit_results 5).map Prod.fst).length :=
  threshold_filter_monotone wit_results 5 7 (by decide)

/-- C10: DocumentRetriever.retrieve called with k = 0 behaves identically to
calling it with k = None: num_results = k or max_results treats any falsy k
as absent, so the search is issued with the configured max_results. -/
theorem retrieve_k_zero_eq_none {E : Type} (r : DocumentRetriever)
    (persisted : ChromaCollection)
    (scoredSearch : ChromaCollection → String → Int → Except E (List (Document × ℚ)))
    (plainSearch : ChromaCollection → String → Int → Except E (List Document))
    (query : String) (st : VectorStore) :
    DocumentRetriever.retrieve r persisted scoredSearch plainSearch query (some 0) st =
      DocumentRetriever.retrieve r persisted scoredSearch plainSearch query none st := by
  simp [DocumentRetriever.retrieve, pyOr]

/-- C2: when retrieval returns an empty document list, RAGPipeline.query
returns the fixed could-not-find answer (with an empty source list when
return_sources is set) without invoking the Generator, and
RAGPipeline.stream_query yields that fixed message exactly once and ends
without invoking the Generator. -/
theorem query_empty_retrieval_short_circuit
    (retrieve : String → List Document) (gen : String → List Document → String)
    (sgen : String → String → List String)
    (question : String) (return_sources : Bool)
    (h : retrieve question = []) :
    RAGPipeline.query retrieve gen question return_sources =
      { answer := no_info_answer
        sources := if return_sources then some [] else none
        generator_calls := 0 } ∧
    RAGPipeline.stream_query retrieve sgen question = ([no_info_answer], 0) := by
  constructor
  · simp [RAGPipeline.query, h]
  · simp [RAGPipeline.stream_query, h]

/-- Witness for C2 with a retriever that finds nothing. -/
theorem query_empty_retrieval_short_circuit_witness :
    RAGPipeline.query (fun _ => []) (fun _ _ => "generated") "q" true =
      { answer := no_info_answer
        sources := some []
        generator_calls := 0 } ∧
    RAGPipeline.stream_query (fun _ => []) (fun _ _ => ["chunk"]) "q" =
      ([no_info_answer], 0) :=
  query_empty_retrieval_short_circuit (fun _ => []) (fun _ _ => "generated")
    (fun _ _ => ["chunk"]) "q" true rfl

/-- C8: DocumentRetriever.format_context on an empty document sequence
returns its fixed non-empty sentinel, ResponseGenerator._format_documents
on an empty sequence returns its fixed non-empty sentinel, and
generate_from_documents on an empty sequence invokes generate with exactly
that sentinel context; none of these is the empty string. -/
theorem empty_documents_sentinels {E : Type} (g : ResponseGenerator)
    (openaiInvoke : String → String → Option (List String) → Except E String)
    (ollamaInvoke : String → Except E String)
    (question : String) (chat_history : Option (List String)) :
    DocumentRetriever.format_context [] = "No relevant documents found." ∧
    ("No relevant documents found." : String) ≠ "" ∧
    ResponseGenerator.format_documents [] =
      "No relevant information found in the knowledge base." ∧
    ("No relevant information found in the knowledge base." : String) ≠ "" ∧
    ResponseGenerator.generate_from_documents g openaiInvoke ollamaInvoke question []
        chat_history =
      ResponseGenerator.generate g openaiInvoke ollamaInvoke question
        "No relevant information found in the knowledge base." chat_history :=
  ⟨rfl, by decide, rfl, by decide, rfl⟩

/-- C6: a backend invocation failure inside ResponseGenerator.generate,
ResponseGenerator.stream_generate or VectorStore.similarity_search is
propagated to the immediate caller unmodified: the same error comes back,
for every value of the other (unselected) backend, so there is no retry, no
provider fallback and no swallowing or replacing of the error. -/
theorem backend_failure_propagates {E : Type} (e : E)
    (openaiInvoke : String → String → Option (List String) → Except E String)
    (ollamaInvoke : String → Except E String)
    (openaiStream : String → String → Option (List String) → Except E (List String))
    (ollamaStream : String → Except E (List String))
    (persisted : ChromaCollection)
    (scoredSearch : ChromaCollection → String → Int → Except E (List (Document × ℚ)))
    (plainSearch : ChromaCollection → String → Int → Except E (List Document))
    (question context query : String) (chat_history : Option (List String))
    (k : Int) (threshold : ℚ) (st : VectorStore) :
    (openaiInvoke context question chat_history = Except.error e →
      ResponseGenerator.generate { provider := Provider.openai } openaiInvoke
        ollamaInvoke question context chat_history = Except.error e) ∧
    (ollamaInvoke (ResponseGenerator.ollama_prompt_text context question) =
        Except.error e →
      ResponseGenerator.generate { provider := Provider.ollama } openaiInvoke
        ollamaInvoke question context chat_history = Except.error e) ∧
    (openaiStream context question chat_history = Except.error e →
      ResponseGenerator.stream_generate { provider := Provider.openai } openaiStream
        ollamaStream question context chat_history = Except.error e) ∧
    (ollamaStream (ResponseGenerator.ollama_prompt_text context question) =
        Except.error e →
      ResponseGenerator.stream_generate { provider := Provider.ollama } openaiStream
        ollamaStream question context chat_history = Except.error e) ∧
    ((∀ c, scoredSearch c query k = Except.error e) →
      (VectorStore.similarity_search persisted scoredSearch plainSearch query k
        (some threshold) st).1 = Except.error e) ∧
    ((∀ c, plainSearch c query k = Except.error e) →
      (VectorStore.similarity_search persisted scoredSearch plainSearch query k
        none st).1 = Except.error e) := by
  refine ⟨?_, ?_, ?_, ?_, ?_, ?_⟩ <;> intro h <;>
    simp [ResponseGenerator.generate, ResponseGenerator.stream_generate,
      VectorStore.similarity_search, h]

/-- Witness for C6: a failing Ollama invocation comes back as the same
error through generate. -/
theorem backend_failure_propagates_witness :
    ResponseGenerator.generate { provider := Provider.ollama }
      (fun _ _ _ => Except.ok "unused") (fun _ => Except.error 3) "q" "ctx" none =
      Except.error 3 :=
  (backend_failure_propagates 3 (fun _ _ _ => Except.ok "unused")
    (fun _ => Except.error 3) (fun _ _ _ => Except.ok []) (fun _ => Except.ok [])
    wit_collection wit_scored wit_plain "q" "ctx" "query" none 5 7
    wit_store_empty).2.1 rfl

/-- C5 counterexample: the count read used by RAGPipeline.get_stats does
NOT materialize the backing collection: on an uninitialized store,
VectorStore.get_document_count returns 0 and leaves the store
uninitialized, and add_documents with an empty list also returns without
materializing. -/
theorem count_read_does_not_materialize :
    (VectorStore.get_document_count { vector_store := none }).2.vector_store = none ∧
    (VectorStore.get_document_count { vector_store := none }).1 = 0 ∧
    VectorStore.add_documents wit_collection [] 100 { vector_store := none } =
      { vector_store := none } :=
  ⟨rfl, rfl, rfl⟩

/-- C5 amended: similarity_search and add_documents with a non-empty
document list materialize the backing collection when it is uninitialized,
so those callers need no explicit init step; but get_document_count does
not: on an uninitialized store it returns 0 and leaves the store
uninitialized, and add_documents with an empty list returns unchanged. -/
theorem lazy_materialization_amended {E : Type}
    (persisted : ChromaCollection)
    (scoredSearch : ChromaCollection → String → Int → Except E (List (Document × ℚ)))
    (plainSearch : ChromaCollection → String → Int → Except E (List Document))
    (query : String) (k : Int) (score_threshold : Option ℚ)
    (documents : List Document) (batch_size : Nat) (st : VectorStore)
    (h : st.vector_store = none) :
    (VectorStore.similarity_search persisted scoredSearch plainSearch query k
        score_threshold st).2.vector_store = some persisted ∧
    (documents.isEmpty = false →
      (VectorStore.add_documents persisted documents batch_size st).vector_store =
        some ((documents.toChunks batch_size).foldl ChromaCollection.add_documents
          persisted)) ∧
    (documents.isEmpty = true →
      VectorStore.add_documents persisted documents batch_size st = st) ∧
    VectorStore.get_document_count st = (0, st) := by
  obtain ⟨vs⟩ := st
  subst h
  refine ⟨?_, ?_, ?_, ?_⟩
  · cases score_threshold with
    | some threshold =>
      cases hsc : scoredSearch
          (VectorStore.current { vector_store := some persisted }) query k <;>
        simp [VectorStore.similarity_search, hsc, VectorStore.create_or_load]
    | none =>
      cases hsc : plainSearch
          (VectorStore.current { vector_store := some persisted }) query k <;>
        simp [VectorStore.similarity_search, hsc, VectorStore.create_or_load]
  · intro hne
    simp [VectorStore.add_documents, hne, VectorStore.create_or_load,
      VectorStore.current]
  · intro hemp
    simp [VectorStore.add_documents, hemp]
  · rfl

/-- Witness for C5 amended on an uninitialized store with one document. -/
theorem lazy_materialization_amended_witness :
    (VectorStore.similarity_search wit_collection wit_scored wit_plain "q" 5
        (some 7) wit_store_empty).2.vector_store = some wit_collection ∧
    (([wit_doc1] : List Document).isEmpty = false →
      (VectorStore.add_documents wit_collection [wit_doc1] 100
          wit_store_empty).vector_store =
        some ((([wit_doc1] : List Document).toChunks 100).foldl
          ChromaCollection.add_documents wit_collection)) ∧
    (([wit_doc1] : List Document).isEmpty = true →
      VectorStore.add_documents wit_collection [wit_doc1] 100 wit_store_empty =
        wit_store_empty) ∧
    VectorStore.get_document_count wit_store_empty = (0, wit_store_empty) :=
  lazy_materialization_amended wit_collection wit_scored wit_plain "q" 5 (some 7)
    [wit_doc1] 100 wit_store_empty rfl

/-- C3: across the output of one DocumentProcessor.process_documents batch,
the chunk at position i carries chunk_id = i (so the chunk_id values form
the contiguous zero-based sequence 0..N-1, with no gaps or duplicates, in
flattened output order) and chunk_size equal to the character length of its
own content -- for every input list and every splitter. -/
theorem chunk_ids_contiguous_and_sizes (split_documents : List Document → List Document)
    (documents : List Document) (i : Nat)
    (h : i < (DocumentProcessor.process_documents split_documents documents).length) :
    ((DocumentProcessor.process_documents split_documents
        documents).get ⟨i, h⟩).metadata.chunk_id = some i ∧
    ((DocumentProcessor.process_documents split_documents
        documents).get ⟨i, h⟩).metadata.chunk_size =
      some (((DocumentProcessor.process_documents split_documents
        documents).get ⟨i, h⟩).page_content.length) := by
  revert h
  cases hdoc : documents.isEmpty with
  | true =>
    intro h
    simp [DocumentProcessor.process_documents, hdoc] at h
  | false =>
    have hout : DocumentProcessor.process_documents split_documents documents =
        DocumentProcessor.add_chunk_metadata
          (split_documents (DocumentProcessor.clean_documents documents)) := by
      simp [DocumentProcessor.process_documents, hdoc]
    rw [hout]
    intro h
    obtain ⟨h2, hget⟩ := add_chunk_metadata_get _ i h
    rw [hget]
    exact ⟨rfl, rfl⟩

/-- Witness for C3 on a one-document batch with the identity splitter. -/
theorem chunk_ids_contiguous_and_sizes_witness :
    ((DocumentProcessor.process_documents id
        [{ page_content := "ab" }]).get ⟨0, by decide⟩).metadata.chunk_id = some 0 ∧
    ((DocumentProcessor.process_documents id
        [{ page_content := "ab" }]).get ⟨0, by decide⟩).metadata.chunk_size =
      some (((DocumentProcessor.process_documents id
        [{ page_content := "ab" }]).get ⟨0, by decide⟩).page_content.length) :=
  chunk_ids_contiguous_and_sizes id [{ page_content := "ab" }] 0 (by decide)

/-- C4 (with the splitter itself modelled from the spec, since the
RecursiveCharacterTextSplitter code is an external langchain dependency):
for chunk_overlap < chunk_size, every chunk emitted by process_documents
run over the modelled splitter has content length at most chunk_size, and
for two sequentially adjacent chunks derived from the same source document
the overlap region -- the characters past position chunk_size -
chunk_overlap of the earlier chunk -- is identical to the first
chunk_overlap characters of the later chunk. -/
theorem chunk_length_le_and_overlap_eq (chunk_size chunk_overlap : Nat)
    (documents : List Document) (doc : Document)
    (hov : chunk_overlap < chunk_size) :
    (∀ d ∈ DocumentProcessor.process_documents
        (split_documents_model chunk_size chunk_overlap) documents,
      d.page_content.length ≤ chunk_size) ∧
    List.Chain' (fun a b =>
        a.page_content.data.drop (chunk_size - chunk_overlap) =
          b.page_content.data.take chunk_overlap)
      (split_document_model chunk_size chunk_overlap doc) := by
  constructor
  · intro d hd
    cases hdoc : documents.isEmpty with
    | true => simp [DocumentProcessor.process_documents, hdoc] at hd
    | false =>
      have hout : DocumentProcessor.process_documents
          (split_documents_model chunk_size chunk_overlap) documents =
          DocumentProcessor.add_chunk_metadata
            (split_documents_model chunk_size chunk_overlap
              (DocumentProcessor.clean_documents documents)) := by
        simp [DocumentProcessor.process_documents, hdoc]
      rw [hout] at hd
      obtain ⟨d2, hd2, hpc⟩ := mem_add_chunk_metadata _ _ hd
      rw [split_documents_model, List.mem_flatMap] at hd2
      obtain ⟨srcdoc, hsrc, hd2⟩ := hd2
      rw [split_document_model, List.mem_map] at hd2
      obtain ⟨w, hw, hd2eq⟩ := hd2
      rw [hpc, ← hd2eq]
      exact split_text_windows_sizes _ _ _ hov w hw
  · rw [split_document_model, List.chain'_map]
    exact split_text_windows_chain chunk_size chunk_overlap doc.page_content.data hov

/-- Witness for C4: chunk_size 3, chunk_overlap 1, a five-character
document. -/
theorem chunk_length_le_and_overlap_eq_witness :
    (∀ d ∈ DocumentProcessor.process_documents (split_documents_model 3 1)
        [{ page_content := "abcde" }],
      d.page_content.length ≤ 3) ∧
    List.Chain' (fun a b =>
        a.page_content.data.drop (3 - 1) = b.page_content.data.take 1)
      (split_document_model 3 1 { page_content := "abcde" }) :=
  chunk_length_le_and_overlap_eq 3 1 [{ page_content := "abcde" }]
    { page_content := "abcde" } (by decide)

theorem clean_input_after_forall₂ (l : List Document) :
    List.Forall₂ (fun doc after =>
        after.metadata = doc.metadata ∧
        (after.page_content = doc.page_content ∨
          after.page_content = collapse_whitespace doc.page_content))
      l (DocumentProcessor.clean_documents_input_after l) := by
  rw [DocumentProcessor.clean_documents_input_after, List.forall₂_map_right_iff,
    List.forall₂_same]
  intro x hx
  by_cases hstrip : py_strip (collapse_whitespace x.page_content) = ""
  · simp [hstrip]
  · simp [hstrip]

theorem add_chunk_metadata_forall₂ (chunks : List Document) :
    List.Forall₂ (fun chunk tagged =>
        tagged.page_content = chunk.page_content ∧
        tagged.metadata.source = chunk.metadata.source)
      chunks (DocumentProcessor.add_chunk_metadata chunks) := by
  refine List.forall₂_iff_get.mpr ⟨?_, ?_⟩
  · simp [DocumentProcessor.add_chunk_metadata]
  · intro i h1 h2
    obtain ⟨h3, hget⟩ := add_chunk_metadata_get chunks i h2
    rw [hget]
    exact ⟨rfl, rfl⟩

/-- C9 counterexample: process_documents does mutate the content of an
input document: the _clean_documents loop assigns the whitespace-collapsed
content back onto the caller document, so an input whose content holds a
double space comes back changed after the call. -/
theorem clean_mutates_input_content :
    DocumentProcessor.process_documents_input_after [{ page_content := "a  b" }] ≠
      [{ page_content := "a  b" }] := by
  decide

/-- C9 amended: the only mutation process_documents performs on its input
documents is the whitespace normalization of _clean_documents -- each input
keeps its metadata, and its content is either untouched or replaced by its
whitespace-collapsed form -- while the metadata step touches only the
emitted chunks, to which it adds chunk_id and chunk_size without changing
their content or source identity. -/
theorem process_documents_input_effect (documents chunks : List Document) :
    List.Forall₂ (fun doc after =>
        after.metadata = doc.metadata ∧
        (after.page_content = doc.page_content ∨
          after.page_content = collapse_whitespace doc.page_content))
      documents (DocumentProcessor.process_documents_input_after documents) ∧
    List.Forall₂ (fun chunk tagged =>
        tagged.page_content = chunk.page_content ∧
        tagged.metadata.source = chunk.metadata.source)
      chunks (DocumentProcessor.add_chunk_metadata chunks) := by
  constructor
  · cases documents with
    | nil => exact List.Forall₂.nil
    | cons d ds => exact clean_input_after_forall₂ (d :: ds)
  · exact add_chunk_metadata_forall₂ chunks
